import Mathlib

/-!
Shallow embedding of the emotion-aware learning engine of the
EmotionAwareLearning component: activity-log scoring (frustration, stress,
engagement), state aggregation (confidence), seeding from a prior
assessment, the difficulty suggestion, the break/message policy, and the
consecutive-wrong counter of simulateActivity.

Numbers are modelled as rationals; timestamps are in milliseconds as in the
source (Date.now()). The only place the source can produce NaN on its
reachable inputs is the seeding division wrongCount / totalQuestions, which
is modelled explicitly with the JSNum type below.
-/

namespace EduSense

/-- The activityType field of a LearningActivity. -/
inductive ActivityType where
  | question_answered
  | time_spent
  | hint_requested
  | retry
  deriving DecidableEq

/-- The difficultyLevel values. -/
inductive Difficulty where
  | Easy
  | Medium
  | Hard
  | Expert
  deriving DecidableEq

/-- One learner activity (interface LearningActivity); the optional fields of
the source are Option here. -/
structure LearningActivity where
  timestamp : ℚ
  activityType : ActivityType
  isCorrect : Option Bool
  timeSpent : Option ℚ
  difficultyLevel : Option Difficulty
  deriving DecidableEq

/-- JS truthiness of the optional numeric field timeSpent when used as a
condition (the filter a.timeSpent): undefined and 0 are falsy. -/
def numTruthy : Option ℚ → Bool
  | none => false
  | some q => decide (q ≠ 0)

/-- JS Array slice with a negative start, slice(-n): the last n elements of
the list (the whole list when it has fewer than n elements). -/
def sliceLast {α : Type} (n : ℕ) (l : List α) : List α :=
  l.drop (l.length - n)

/-- analyzeFrustration. Mirrors the source exactly: early return 0 on an
empty log; last-10 window; wrongAnswers counts question_answered entries
whose isCorrect is not true (JS negation of an optional boolean, so an
undefined isCorrect also counts); avgTimeSpent divides the sum of the truthy
timeSpent values by the length of the whole window; retries add 10 each;
the result is Math.min(score, 100). -/
def analyzeFrustration (activities : List LearningActivity) : ℚ :=
  if activities.length = 0 then 0
  else
    let recentActivities := sliceLast 10 activities
    let wrongAnswers :=
      (recentActivities.filter fun a =>
        decide (a.activityType = ActivityType.question_answered)
          && !(a.isCorrect.getD false)).length
    let s1 : ℚ := wrongAnswers * 15
    let avgTimeSpent : ℚ :=
      ((recentActivities.filter fun a => numTruthy a.timeSpent).foldl
        (fun acc a => acc + a.timeSpent.getD 0) 0) / recentActivities.length
    let s2 : ℚ := if avgTimeSpent > 120 then s1 + 20 else s1
    let retries :=
      (recentActivities.filter fun a =>
        decide (a.activityType = ActivityType.retry)).length
    let s3 : ℚ := s2 + retries * 10
    min s3 100

/-- calculateStress, with the elapsed session minutes passed explicitly
(the source reads Date.now() minus sessionStartTime). JS note: on an empty
log avgTime is 0/0 = NaN there and 0 here; the rushing branch agrees on
every input because its second conjunct, length > 3, already fails. -/
def calculateStress (sessionDuration : ℚ)
    (activities : List LearningActivity) : ℚ :=
  let s1 : ℚ := if sessionDuration > 45 then 30 else 0
  let s2 : ℚ := if sessionDuration > 90 then s1 + 40 else s1
  let recentHardQuestions :=
    ((sliceLast 5 activities).filter fun a =>
      decide (a.difficultyLevel = some Difficulty.Hard)
        || decide (a.difficultyLevel = some Difficulty.Expert)).length
  let s3 : ℚ := s2 + recentHardQuestions * 10
  let recentTimes := (sliceLast 5 activities).map fun a => a.timeSpent.getD 0
  let avgTime : ℚ := recentTimes.foldl (· + ·) 0 / recentTimes.length
  let s4 : ℚ := if avgTime < 30 ∧ recentTimes.length > 3 then s3 + 20 else s3
  min s4 100

/-- calculateEngagement, with the current instant passed explicitly. Early
return 100 on an empty log; a 40-point deduction when the last entry of the
last-10 window is more than 180000 ms old; 8 points per hint_requested in
the window; the result is Math.max(score, 0). -/
def calculateEngagement (now : ℚ)
    (activities : List LearningActivity) : ℚ :=
  if activities.length = 0 then 100
  else
    let recentActivities := sliceLast 10 activities
    let e1 : ℚ := 100
    let idle : Bool :=
      match recentActivities.getLast? with
      | some lastActivity => decide (now - lastActivity.timestamp > 180000)
      | none => false
    let e2 : ℚ := if idle then e1 - 40 else e1
    let hints :=
      (recentActivities.filter fun a =>
        decide (a.activityType = ActivityType.hint_requested)).length
    let e3 : ℚ := e2 - hints * 8
    max e3 0

/-- The four-field emotional snapshot (interface EmotionalState). -/
structure EmotionalState where
  frustrationLevel : ℚ
  stressLevel : ℚ
  engagementLevel : ℚ
  confidenceLevel : ℚ
  deriving DecidableEq

/-- The state recomputation effect on [activityLog]: all three scores are
recomputed and confidence is derived as max(0, 100 - (f + s) / 2). -/
def recomputeEmotionalState (sessionDuration now : ℚ)
    (activityLog : List LearningActivity) : EmotionalState :=
  let frustration := analyzeFrustration activityLog
  let stress := calculateStress sessionDuration activityLog
  let engagement := calculateEngagement now activityLog
  let confidence : ℚ := max 0 (100 - (frustration + stress) / 2)
  { frustrationLevel := frustration, stressLevel := stress,
    engagementLevel := engagement, confidenceLevel := confidence }

/-- A JS number that may be NaN. Needed only on the seeding path, where
wrongCount / totalQuestions is 0/0 = NaN for an empty questionResults list;
wrongCount is the length of a sublist of questionResults, so a nonzero
dividend over a zero divisor (JS Infinity) never occurs there. -/
inductive JSNum where
  | nan
  | val (q : ℚ)
  deriving DecidableEq

/-- JS division as reachable in the seed: a zero divisor (with the dividend
then also zero) gives NaN. -/
def jsDiv (a b : ℚ) : JSNum :=
  if b = 0 then JSNum.nan else JSNum.val (a / b)

/-- Multiplication by a constant; NaN propagates. -/
def jsMul (x : JSNum) (c : ℚ) : JSNum :=
  match x with
  | JSNum.nan => JSNum.nan
  | JSNum.val q => JSNum.val (q * c)

/-- Math.min with a NaN-able first argument: Math.min(NaN, c) is NaN. -/
def jsMin (x : JSNum) (c : ℚ) : JSNum :=
  match x with
  | JSNum.nan => JSNum.nan
  | JSNum.val q => JSNum.val (min q c)

/-- One entry of Result.questionResults; only isCorrect is read. -/
structure QuestionResult where
  isCorrect : Bool
  deriving DecidableEq

/-- The fields of the Result prop that getInitialEmotionalState reads:
the per-question correctness flags, percentage, and timeTaken in minutes. -/
structure Result where
  questionResults : List QuestionResult
  percentage : ℚ
  timeTaken : ℚ
  deriving DecidableEq

/-- The seeded snapshot; the frustration seed is a JSNum because of the
possible 0/0 (see JSNum). -/
structure SeedState where
  frustrationLevel : JSNum
  stressLevel : ℚ
  engagementLevel : ℚ
  confidenceLevel : ℚ
  deriving DecidableEq

/-- getInitialEmotionalState: defaults without a prior result, otherwise the
seeding arithmetic of the source, including the unguarded division
wrongCount / totalQuestions. -/
def getInitialEmotionalState : Option Result → SeedState
  | none =>
    { frustrationLevel := JSNum.val 0, stressLevel := 0,
      engagementLevel := 100, confidenceLevel := 70 }
  | some lastResult =>
    let wrongCount :=
      (lastResult.questionResults.filter fun qr => !qr.isCorrect).length
    let totalQuestions := lastResult.questionResults.length
    let wrongPercentage := jsMul (jsDiv wrongCount totalQuestions) 100
    let score := lastResult.percentage
    let frustration := jsMin (jsMul wrongPercentage (8 / 10)) 80
    let stress : ℚ :=
      if lastResult.timeTaken > 45
        then min (50 + (lastResult.timeTaken - 45)) 70
        else 30
    let engagement : ℚ := max 40 (min 100 (score + 20))
    let confidence : ℚ := max 20 (min 95 score)
    { frustrationLevel := frustration, stressLevel := stress,
      engagementLevel := engagement, confidenceLevel := confidence }

/-- The message categories of EncouragementMessage. -/
inductive MessageCategory where
  | motivation
  | breakTime
  | celebration
  | guidance
  deriving DecidableEq

/-- The break/message branch of the state recomputation effect: the first
branch raises the break suggestion and emits a break message; the later
branches leave the break flag unchanged, and the final case leaves the
current message unchanged. -/
def recomputePolicy (frustration stress engagement : ℚ)
    (showBreak : Bool) (message : Option MessageCategory) :
    Bool × Option MessageCategory :=
  if frustration > 60 ∨ stress > 70 then (true, some MessageCategory.breakTime)
  else if frustration > 40 then (showBreak, some MessageCategory.motivation)
  else if engagement < 50 then (showBreak, some MessageCategory.guidance)
  else (showBreak, message)

/-- adjustDifficulty: the four-rule if/else chain of the source. -/
def adjustDifficulty (frustration stress confidence : ℚ) : String :=
  if frustration > 70 ∨ stress > 80 then "Easy"
  else if frustration > 50 ∨ stress > 60 then "Medium"
  else if confidence > 80 ∧ frustration < 30 then "Hard"
  else "Medium"

/-- The question_answered branch of simulateActivity, acting on the
consecutiveWrong counter: a (truthy) correct answer resets it — the
celebration message there is random and never motivation — and a wrong
answer increments it, deterministically generating a motivation message
exactly when the pre-increment counter (the value captured by the render
closure) is at least 2. The Bool output records that forced motivation
message. -/
def answerStep (consecutiveWrong : ℕ) (isCorrect : Option Bool) :
    ℕ × Bool :=
  if isCorrect.getD false then (0, false)
  else (consecutiveWrong + 1, decide (consecutiveWrong ≥ 2))

/-- Run a sequence of question_answered events from a fresh session: the
final counter and the per-event forced-motivation flags. -/
def runAnswers (events : List (Option Bool)) : ℕ × List Bool :=
  events.foldl
    (fun st ic =>
      let next := answerStep st.1 ic
      (next.1, st.2 ++ [next.2]))
    (0, [])

/-- A question answered with an undefined isCorrect and 150 s spent. -/
def undefCorrectActivity : LearningActivity :=
  { timestamp := 0, activityType := ActivityType.question_answered,
    isCorrect := none, timeSpent := some 150, difficultyLevel := none }

/-- A retry with no timeSpent. -/
def retryActivity : LearningActivity :=
  { timestamp := 0, activityType := ActivityType.retry,
    isCorrect := none, timeSpent := none, difficultyLevel := none }

/-- A single wrong answer with 100 s spent on a Medium question. -/
def wrongOnceActivity : LearningActivity :=
  { timestamp := 0, activityType := ActivityType.question_answered,
    isCorrect := some false, timeSpent := some 100,
    difficultyLevel := some Difficulty.Medium }

/-- A single correct answer recorded at timestamp 0. -/
def oldActivity : LearningActivity :=
  { timestamp := 0, activityType := ActivityType.question_answered,
    isCorrect := some true, timeSpent := none, difficultyLevel := none }

/-- The prior assessment of the seeding example: percentage 90, one wrong
answer out of ten questions, timeTaken 50 minutes. -/
def priorResult : Result :=
  { questionResults :=
      { isCorrect := false } :: List.replicate 9 { isCorrect := true },
    percentage := 90, timeTaken := 50 }

/-- A prior assessment with an empty questionResults list. -/
def emptyResult : Result :=
  { questionResults := [], percentage := 0, timeTaken := 0 }


/-- Folding addition of the default-0 timeSpent over a list equals the
initial value plus the sum of the mapped values. -/
lemma foldl_add_getD (l : List LearningActivity) (init : ℚ) :
    l.foldl (fun acc a => acc + a.timeSpent.getD 0) init
      = init + (l.map fun a => a.timeSpent.getD 0).sum := by
  induction l generalizing init with
  | nil => simp
  | cons a t ih =>
    simp only [List.foldl_cons, List.map_cons, List.sum_cons]
    rw [ih]
    ring

/-- Entries with a falsy timeSpent contribute 0, so restricting the sum to
the truthy entries does not change it. -/
lemma filter_truthy_sum (l : List LearningActivity) :
    ((l.filter fun a => numTruthy a.timeSpent).map
        fun a => a.timeSpent.getD 0).sum
      = (l.map fun a => a.timeSpent.getD 0).sum := by
  induction l with
  | nil => rfl
  | cons a t ih =>
    by_cases h : numTruthy a.timeSpent
    · simp [List.filter_cons, h, ih]
    · have hz : a.timeSpent.getD 0 = 0 := by
        cases hts : a.timeSpent with
        | none => rfl
        | some q =>
          simp only [numTruthy, hts, Bool.not_eq_true, decide_eq_false_iff_not,
            not_not] at h
          simp [hts, h]
      simp only [List.filter_cons, h, List.map_cons, List.sum_cons, ih, hz,
        Bool.false_eq_true, if_false, zero_add]

/-- Dropping fewer elements than the length preserves the last element. -/
lemma getLast?_drop {α : Type} (l : List α) (k : ℕ) (h : k < l.length) :
    (l.drop k).getLast? = l.getLast? := by
  induction l generalizing k with
  | nil => simp at h
  | cons a t ih =>
    cases k with
    | zero => rfl
    | succ k =>
      simp only [List.length_cons, Nat.succ_lt_succ_iff] at h
      rw [List.drop_succ_cons, ih k h]
      cases t with
      | nil => simp at h
      | cons b t2 => exact (List.getLast?_cons_cons).symm

/-- The last-n window of a nonempty list (n positive) has the same last
element as the list itself. -/
lemma getLast?_sliceLast {α : Type} (n : ℕ) (l : List α) (hn : 0 < n)
    (h : l ≠ []) : (sliceLast n l).getLast? = l.getLast? := by
  have hl : 0 < l.length := List.length_pos.mpr h
  exact getLast?_drop l (l.length - n) (by omega)

lemma analyzeFrustration_closed (l : List LearningActivity) :
    analyzeFrustration l =
      if l.length = 0 then 0
      else
        min 100
          ((15 : ℚ) * (((sliceLast 10 l).countP fun a =>
              decide (a.activityType = ActivityType.question_answered)
                && !(a.isCorrect.getD false)) : ℚ) +
            (if ((sliceLast 10 l).map fun a => a.timeSpent.getD 0).sum
                  / ((sliceLast 10 l).length : ℚ) > 120 then (20 : ℚ) else 0) +
            (10 : ℚ) * (((sliceLast 10 l).countP fun a =>
              decide (a.activityType = ActivityType.retry)) : ℚ)) := by
  simp only [analyzeFrustration]
  split
  · rfl
  · rw [List.countP_eq_length_filter, List.countP_eq_length_filter,
      foldl_add_getD, zero_add, filter_truthy_sum, min_comm]
    congr 1
    split <;> ring

lemma calculateStress_closed (d : ℚ) (l : List LearningActivity) :
    calculateStress d l =
      min 100
        ((if d > 45 then (30 : ℚ) else 0) + (if d > 90 then (40 : ℚ) else 0) +
          (10 : ℚ) * (((sliceLast 5 l).countP fun a =>
            decide (a.difficultyLevel = some Difficulty.Hard)
              || decide (a.difficultyLevel = some Difficulty.Expert)) : ℚ) +
          if (((sliceLast 5 l).map fun a => a.timeSpent.getD 0).sum
                / ((sliceLast 5 l).length : ℚ) < 30)
              ∧ 3 < (sliceLast 5 l).length then (20 : ℚ) else 0) := by
  simp only [calculateStress, ← List.sum_eq_foldl, List.length_map,
    List.countP_eq_length_filter, min_comm]
  congr 1
  split <;> split <;> split <;> ring

lemma calculateEngagement_closed (now : ℚ) (l : List LearningActivity) :
    calculateEngagement now l =
      max 0 ((100 : ℚ) -
        (if l.getLast?.any (fun la => decide (now - la.timestamp > 180000))
          then (40 : ℚ) else 0) -
        (8 : ℚ) * (((sliceLast 10 l).countP fun a =>
          decide (a.activityType = ActivityType.hint_requested)) : ℚ)) := by
  rcases eq_or_ne l [] with rfl | h
  · simp [calculateEngagement, sliceLast, Option.any]
  · have hlen : ¬ l.length = 0 := fun h0 => h (List.length_eq_zero.mp h0)
    simp only [calculateEngagement, if_neg hlen,
      getLast?_sliceLast 10 l (by norm_num) h,
      List.countP_eq_length_filter, max_comm]
    congr 1
    cases hl : l.getLast? with
    | none => simp only [Option.any, Bool.false_eq_true, if_false]; ring
    | some la =>
      simp only [Option.any]
      split <;> ring

/-- The frustration score is a natural number at most 100. -/
lemma analyzeFrustration_nat (l : List LearningActivity) :
    ∃ n : ℕ, analyzeFrustration l = (n : ℚ) ∧ n ≤ 100 := by
  rw [analyzeFrustration_closed]
  split
  · exact ⟨0, by norm_num, by norm_num⟩
  · split
    · refine ⟨min 100 (15 * ((sliceLast 10 l).countP fun a =>
          decide (a.activityType = ActivityType.question_answered)
            && !(a.isCorrect.getD false)) + 20 +
          10 * ((sliceLast 10 l).countP fun a =>
            decide (a.activityType = ActivityType.retry))),
        ?_, min_le_left _ _⟩
      push_cast [Nat.cast_min]
      norm_num
    · refine ⟨min 100 (15 * ((sliceLast 10 l).countP fun a =>
          decide (a.activityType = ActivityType.question_answered)
            && !(a.isCorrect.getD false)) +
          10 * ((sliceLast 10 l).countP fun a =>
            decide (a.activityType = ActivityType.retry))),
        ?_, min_le_left _ _⟩
      push_cast [Nat.cast_min]
      norm_num

/-- The stress score is a natural number at most 100. -/
lemma calculateStress_nat (d : ℚ) (l : List LearningActivity) :
    ∃ n : ℕ, calculateStress d l = (n : ℚ) ∧ n ≤ 100 := by
  rw [calculateStress_closed]
  set c : ℕ := (sliceLast 5 l).countP fun a =>
    decide (a.difficultyLevel = some Difficulty.Hard)
      || decide (a.difficultyLevel = some Difficulty.Expert) with hc
  refine ⟨min 100 ((if d > 45 then 30 else 0) + (if d > 90 then 40 else 0)
    + 10 * c +
    (if (((sliceLast 5 l).map fun a => a.timeSpent.getD 0).sum
          / ((sliceLast 5 l).length : ℚ) < 30)
        ∧ 3 < (sliceLast 5 l).length then 20 else 0)), ?_, min_le_left _ _⟩
  push_cast [Nat.cast_min, apply_ite (Nat.cast : ℕ → ℚ)]
  norm_num

/-- The engagement score is a natural number at most 100. -/
lemma calculateEngagement_nat (now : ℚ) (l : List LearningActivity) :
    ∃ n : ℕ, calculateEngagement now l = (n : ℚ) ∧ n ≤ 100 := by
  rw [calculateEngagement_closed]
  set h : ℕ := (sliceLast 10 l).countP fun a =>
    decide (a.activityType = ActivityType.hint_requested) with hh
  set pen : ℚ := if l.getLast?.any (fun la => decide (now - la.timestamp > 180000))
    then (40 : ℚ) else 0 with hpen
  have hz : ∃ z : ℤ, (100 : ℚ) - pen - 8 * h = (z : ℚ) ∧ z ≤ 100 := by
    rw [hpen]
    split
    · exact ⟨60 - 8 * h, by push_cast; ring, by omega⟩
    · exact ⟨100 - 8 * h, by push_cast; ring, by omega⟩
  obtain ⟨z, hzeq, hz100⟩ := hz
  refine ⟨(0 ⊔ z).toNat, ?_, by omega⟩
  rw [hzeq, ← Int.cast_natCast, Int.toNat_of_nonneg (le_max_left 0 z)]
  push_cast
  rfl


/-- Claim C1, amended. For every activity log the frustration score equals
min(100, 15 x (number of last-10-window question_answered activities whose
isCorrect is not true - an undefined isCorrect also counts as wrong) +
(20 if the sum of the window timeSpent values (missing treated as 0)
divided by the window length exceeds 120 seconds, else 0) + 10 x (number of
retry activities in the window)); for an empty log the score is 0, and when
no window activity has a timeSpent the sum is 0 and the bonus does not
apply. -/
theorem frustration_window_formula (l : List LearningActivity) :
    analyzeFrustration l =
      if l.length = 0 then 0
      else
        min 100
          ((15 : ℚ) * (((sliceLast 10 l).countP fun a =>
              decide (a.activityType = ActivityType.question_answered)
                && !(a.isCorrect.getD false)) : ℚ) +
            (if ((sliceLast 10 l).map fun a => a.timeSpent.getD 0).sum
                  / ((sliceLast 10 l).length : ℚ) > 120 then (20 : ℚ) else 0) +
            (10 : ℚ) * (((sliceLast 10 l).countP fun a =>
              decide (a.activityType = ActivityType.retry)) : ℚ)) :=
  analyzeFrustration_closed l

/-- Claim C1, counterexample to the claim as stated. For the log
[question_answered with undefined isCorrect and 150 s spent, retry without
timeSpent] the code scores 25 (the undefined isCorrect counts as wrong for
15 points, and the average divides 150 by the window length 2, giving 75,
which misses the 120 s bonus), while the claim formula - zero
question_answered activities with isCorrect false, average over the
defined timeSpent entries 150/1 > 120, one retry - yields
min(100, 0 + 20 + 10) = 30. -/
theorem frustration_claim_counterexample :
    analyzeFrustration [undefCorrectActivity, retryActivity] = 25 ∧
    min (100 : ℚ)
      (15 * 0 + (if (150 : ℚ) / 1 > 120 then 20 else 0) + 10 * 1) = 30 ∧
    (25 : ℚ) ≠ 30 := by
  refine ⟨?_, by norm_num, by norm_num⟩
  simp +decide only [analyzeFrustration, sliceLast, numTruthy,
    undefCorrectActivity, retryActivity, List.filter]
  norm_num

/-- Claim C2. For every activity log and elapsed session time, the stress
score equals min(100, (30 if sessionMinutes > 45) + (40 additionally if
sessionMinutes > 90) + 10 x (number of last-5-window activities with
difficultyLevel Hard or Expert) + (20 if the mean timeSpent over the last-5
window, missing treated as 0, is below 30 seconds and the window has more
than 3 activities)). -/
theorem stress_formula (sessionMinutes : ℚ) (l : List LearningActivity) :
    calculateStress sessionMinutes l =
      min 100
        ((if sessionMinutes > 45 then (30 : ℚ) else 0) +
          (if sessionMinutes > 90 then (40 : ℚ) else 0) +
          (10 : ℚ) * (((sliceLast 5 l).countP fun a =>
            decide (a.difficultyLevel = some Difficulty.Hard)
              || decide (a.difficultyLevel = some Difficulty.Expert)) : ℚ) +
          if (((sliceLast 5 l).map fun a => a.timeSpent.getD 0).sum
                / ((sliceLast 5 l).length : ℚ) < 30)
              ∧ 3 < (sliceLast 5 l).length then (20 : ℚ) else 0) :=
  calculateStress_closed sessionMinutes l

/-- Claim C3. For every activity log, engagement equals max(0, 100 - (40 if
the log is non-empty and now minus the most recent timestamp exceeds
180 seconds, else 0) - 8 x (number of hint_requested activities in the
last-10 window)); an empty log gives exactly 100 with no idle penalty, and
a single activity timestamped 200 seconds before now with no hints gives
60. -/
theorem engagement_spec :
    (∀ (now : ℚ) (l : List LearningActivity),
      calculateEngagement now l =
        max 0 ((100 : ℚ) -
          (if l.getLast?.any (fun la => decide (now - la.timestamp > 180000))
            then (40 : ℚ) else 0) -
          (8 : ℚ) * (((sliceLast 10 l).countP fun a =>
            decide (a.activityType = ActivityType.hint_requested)) : ℚ))) ∧
    (∀ now : ℚ, calculateEngagement now [] = 100) ∧
    calculateEngagement 200000 [oldActivity] = 60 := by
  refine ⟨calculateEngagement_closed, fun now => rfl, ?_⟩
  simp +decide only [calculateEngagement, sliceLast, oldActivity, List.filter]
  norm_num

/-- Claim C4, counterexample to the claim as stated. Already after seeding
with no prior assessment - a reachable snapshot - the state has
confidence 70 although the aggregation formula applied to its frustration 0
and stress 0 yields max(0, 100 - (0+0)/2) = 100, so the invariant does not
hold at seeded snapshots. -/
theorem confidence_seed_counterexample :
    getInitialEmotionalState none =
      { frustrationLevel := JSNum.val 0, stressLevel := 0,
        engagementLevel := 100, confidenceLevel := 70 } ∧
    (70 : ℚ) ≠ max 0 (100 - (0 + 0) / 2) := ⟨rfl, by norm_num⟩

/-- Claim C4, amended. In every EmotionalState produced by the activity-log
recomputation (after every activity-log mutation), confidenceLevel equals
max(0, 100 - (frustrationLevel + stressLevel)/2) exactly; the seeded
initial snapshots, by contrast, set confidence independently. -/
theorem confidence_recompute_dependency (sessionDuration now : ℚ)
    (log : List LearningActivity) :
    (recomputeEmotionalState sessionDuration now log).confidenceLevel =
      max 0 (100 -
        ((recomputeEmotionalState sessionDuration now log).frustrationLevel +
          (recomputeEmotionalState sessionDuration now log).stressLevel) / 2) :=
  rfl

/-- Claim C5, counterexample to the claim as stated. Appending a single
wrong answer yields frustration 15, stress 0, and confidence
100 - 15/2 = 185/2 = 92.5, which is not an integer. -/
theorem confidence_half_integer_counterexample :
    (recomputeEmotionalState 0 0 [wrongOnceActivity]).confidenceLevel = 185 / 2 ∧
    ¬ ∃ n : ℤ, (185 : ℚ) / 2 = (n : ℚ) := by
  constructor
  · simp +decide only [recomputeEmotionalState, analyzeFrustration,
      calculateStress, calculateEngagement, sliceLast, numTruthy,
      wrongOnceActivity, List.filter]
    norm_num
  · rintro ⟨n, hn⟩
    have h1 : (185 : ℚ) = 2 * (n : ℚ) := by linarith
    have h2 : (185 : ℤ) = 2 * n := by exact_mod_cast h1
    omega

/-- Claim C5, amended. After every recomputation triggered by an activity
append, all four EmotionalState fields lie within [0,100]; frustration,
stress and engagement are natural numbers, and confidence is half of a
natural number (so an integer or an integer plus one half, not always an
integer). -/
theorem state_fields_range (sessionDuration now : ℚ)
    (log : List LearningActivity) :
    (0 ≤ (recomputeEmotionalState sessionDuration now log).frustrationLevel ∧
      (recomputeEmotionalState sessionDuration now log).frustrationLevel ≤ 100 ∧
      ∃ a : ℕ, (recomputeEmotionalState sessionDuration now log).frustrationLevel
        = (a : ℚ)) ∧
    (0 ≤ (recomputeEmotionalState sessionDuration now log).stressLevel ∧
      (recomputeEmotionalState sessionDuration now log).stressLevel ≤ 100 ∧
      ∃ b : ℕ, (recomputeEmotionalState sessionDuration now log).stressLevel
        = (b : ℚ)) ∧
    (0 ≤ (recomputeEmotionalState sessionDuration now log).engagementLevel ∧
      (recomputeEmotionalState sessionDuration now log).engagementLevel ≤ 100 ∧
      ∃ c : ℕ, (recomputeEmotionalState sessionDuration now log).engagementLevel
        = (c : ℚ)) ∧
    (0 ≤ (recomputeEmotionalState sessionDuration now log).confidenceLevel ∧
      (recomputeEmotionalState sessionDuration now log).confidenceLevel ≤ 100 ∧
      ∃ e : ℕ, (recomputeEmotionalState sessionDuration now log).confidenceLevel
        = (e : ℚ) / 2) := by
  obtain ⟨a, ha, ha100⟩ := analyzeFrustration_nat log
  obtain ⟨b, hb, hb100⟩ := calculateStress_nat sessionDuration log
  obtain ⟨c, hc, hc100⟩ := calculateEngagement_nat now log
  have hf : (recomputeEmotionalState sessionDuration now log).frustrationLevel
      = analyzeFrustration log := rfl
  have hs : (recomputeEmotionalState sessionDuration now log).stressLevel
      = calculateStress sessionDuration log := rfl
  have he : (recomputeEmotionalState sessionDuration now log).engagementLevel
      = calculateEngagement now log := rfl
  have hconf : (recomputeEmotionalState sessionDuration now log).confidenceLevel
      = max 0 (100 -
          (analyzeFrustration log + calculateStress sessionDuration log) / 2) :=
    rfl
  refine ⟨⟨?_, ?_, ⟨a, by rw [hf]; exact ha⟩⟩,
          ⟨?_, ?_, ⟨b, by rw [hs]; exact hb⟩⟩,
          ⟨?_, ?_, ⟨c, by rw [he]; exact hc⟩⟩,
          ⟨?_, ?_, ?_⟩⟩
  · rw [hf, ha]; exact Nat.cast_nonneg a
  · rw [hf, ha]; exact_mod_cast ha100
  · rw [hs, hb]; exact Nat.cast_nonneg b
  · rw [hs, hb]; exact_mod_cast hb100
  · rw [he, hc]; exact Nat.cast_nonneg c
  · rw [he, hc]; exact_mod_cast hc100
  · rw [hconf]; exact le_max_left _ _
  · rw [hconf, ha, hb]
    have h1 : (0 : ℚ) ≤ (a : ℚ) := Nat.cast_nonneg a
    have h2 : (0 : ℚ) ≤ (b : ℚ) := Nat.cast_nonneg b
    apply max_le <;> linarith
  · rw [hconf, ha, hb]
    have hab : a + b ≤ 200 := by omega
    have habq : ((a : ℚ) + b) ≤ 200 := by exact_mod_cast hab
    refine ⟨200 - (a + b), ?_⟩
    rw [max_eq_right (by linarith)]
    push_cast [Nat.cast_sub hab]
    ring

/-- Claim C6. The initial EmotionalState is (frustration 0, stress 0,
engagement 100, confidence 70) without a prior assessment; with one, it is
seeded as frustration = min(80, 0.8 x (100 x wrongCount/totalQuestions)),
stress = 30 if timeTaken <= 45 minutes else min(70, 50 + (timeTaken - 45)),
engagement = clamp(percentage + 20, 40, 100), confidence =
clamp(percentage, 20, 95); percentage 90, 1 wrong of 10, timeTaken 50 seeds
(8, 55, 100, 90). -/
theorem initial_state_seeding :
    (getInitialEmotionalState none =
      { frustrationLevel := JSNum.val 0, stressLevel := 0,
        engagementLevel := 100, confidenceLevel := 70 }) ∧
    (∀ pr : Result, pr.questionResults.length ≠ 0 →
      getInitialEmotionalState (some pr) =
        { frustrationLevel := JSNum.val (min 80 ((8 : ℚ) / 10 * (100 *
            ((pr.questionResults.filter fun qr => !qr.isCorrect).length : ℚ) /
            (pr.questionResults.length : ℚ)))),
          stressLevel := if pr.timeTaken ≤ 45 then (30 : ℚ)
            else min 70 (50 + (pr.timeTaken - 45)),
          engagementLevel := max 40 (min 100 (pr.percentage + 20)),
          confidenceLevel := max 20 (min 95 pr.percentage) }) ∧
    getInitialEmotionalState (some priorResult) =
      { frustrationLevel := JSNum.val 8, stressLevel := 55,
        engagementLevel := 100, confidenceLevel := 90 } := by
  refine ⟨rfl, ?_, ?_⟩
  · intro pr h
    have ht : ¬ ((pr.questionResults.length : ℚ) = 0) := by exact_mod_cast h
    simp only [getInitialEmotionalState, jsDiv, jsMul, jsMin, if_neg ht]
    congr 1
    · rw [min_comm]
      congr 1
      ring_nf
    · rcases le_or_lt pr.timeTaken 45 with h45 | h45
      · rw [if_neg (not_lt.mpr h45), if_pos h45]
      · rw [if_pos h45, if_neg (not_le.mpr h45), min_comm]
  · simp +decide only [getInitialEmotionalState, priorResult, jsDiv, jsMul,
      jsMin, List.replicate, List.filter]
    norm_num

/-- Witness for C6: the seeding formula instantiated at the concrete prior
result. -/
theorem initial_state_seeding_witness :
    getInitialEmotionalState (some priorResult) =
      { frustrationLevel := JSNum.val (min 80 ((8 : ℚ) / 10 * (100 *
          ((priorResult.questionResults.filter fun qr => !qr.isCorrect).length : ℚ) /
          (priorResult.questionResults.length : ℚ)))),
        stressLevel := if priorResult.timeTaken ≤ 45 then (30 : ℚ)
          else min 70 (50 + (priorResult.timeTaken - 45)),
        engagementLevel := max 40 (min 100 (priorResult.percentage + 20)),
        confidenceLevel := max 20 (min 95 priorResult.percentage) } :=
  initial_state_seeding.2.1 priorResult (by decide)

/-- Claim C7. The suggested difficulty is total and evaluated in this exact
order, first match winning: Easy if frustration > 70 or stress > 80; else
Medium if frustration > 50 or stress > 60; else Hard if confidence > 80 and
frustration < 30; else Medium; frustration 75, stress 85, confidence 90
yields Easy, and the result is always Easy, Medium or Hard. -/
theorem difficulty_rule_order :
    (∀ f s c : ℚ, (f > 70 ∨ s > 80) → adjustDifficulty f s c = "Easy") ∧
    (∀ f s c : ℚ, ¬(f > 70 ∨ s > 80) → (f > 50 ∨ s > 60) →
      adjustDifficulty f s c = "Medium") ∧
    (∀ f s c : ℚ, ¬(f > 70 ∨ s > 80) → ¬(f > 50 ∨ s > 60) →
      (c > 80 ∧ f < 30) → adjustDifficulty f s c = "Hard") ∧
    (∀ f s c : ℚ, ¬(f > 70 ∨ s > 80) → ¬(f > 50 ∨ s > 60) →
      ¬(c > 80 ∧ f < 30) → adjustDifficulty f s c = "Medium") ∧
    (∀ f s c : ℚ, adjustDifficulty f s c = "Easy" ∨
      adjustDifficulty f s c = "Medium" ∨ adjustDifficulty f s c = "Hard") ∧
    adjustDifficulty 75 85 90 = "Easy" := by
  refine ⟨?_, ?_, ?_, ?_, ?_, ?_⟩
  · intro f s c h
    simp only [adjustDifficulty, if_pos h]
  · intro f s c h1 h2
    simp only [adjustDifficulty, if_neg h1, if_pos h2]
  · intro f s c h1 h2 h3
    simp only [adjustDifficulty, if_neg h1, if_neg h2, if_pos h3]
  · intro f s c h1 h2 h3
    simp only [adjustDifficulty, if_neg h1, if_neg h2, if_neg h3]
  · intro f s c
    simp only [adjustDifficulty]
    split
    · exact Or.inl rfl
    split
    · exact Or.inr (Or.inl rfl)
    split
    · exact Or.inr (Or.inr rfl)
    · exact Or.inr (Or.inl rfl)
  · simp only [adjustDifficulty]
    rw [if_pos]
    norm_num

/-- Witness for C7: the first rule applied at (75, 85, 90). -/
theorem difficulty_rule_order_witness :
    adjustDifficulty 75 85 90 = "Easy" :=
  difficulty_rule_order.1 75 85 90 (by norm_num)

/-- Claim C8. On every recomputation, if frustration > 60 or stress > 70
the break suggestion is raised and the policy message category is break,
overriding the lower-priority categories; else if frustration > 40 the
category is motivation; else if engagement < 50 it is guidance; otherwise
no state-driven message fires; with frustration 65 the category is break,
never motivation. -/
theorem break_policy_spec :
    (∀ (f s e : ℚ) (pb : Bool) (pm : Option MessageCategory),
      (f > 60 ∨ s > 70) →
        recomputePolicy f s e pb pm = (true, some MessageCategory.breakTime)) ∧
    (∀ (f s e : ℚ) (pb : Bool) (pm : Option MessageCategory),
      ¬(f > 60 ∨ s > 70) → f > 40 →
        recomputePolicy f s e pb pm = (pb, some MessageCategory.motivation)) ∧
    (∀ (f s e : ℚ) (pb : Bool) (pm : Option MessageCategory),
      ¬(f > 60 ∨ s > 70) → ¬(f > 40) → e < 50 →
        recomputePolicy f s e pb pm = (pb, some MessageCategory.guidance)) ∧
    (∀ (f s e : ℚ) (pb : Bool) (pm : Option MessageCategory),
      ¬(f > 60 ∨ s > 70) → ¬(f > 40) → ¬(e < 50) →
        recomputePolicy f s e pb pm = (pb, pm)) ∧
    (∀ (s e : ℚ) (pb : Bool) (pm : Option MessageCategory),
      recomputePolicy 65 s e pb pm = (true, some MessageCategory.breakTime)) := by
  refine ⟨?_, ?_, ?_, ?_, ?_⟩
  · intro f s e pb pm h
    simp only [recomputePolicy, if_pos h]
  · intro f s e pb pm h1 h2
    simp only [recomputePolicy, if_neg h1, if_pos h2]
  · intro f s e pb pm h1 h2 h3
    simp only [recomputePolicy, if_neg h1, if_neg h2, if_pos h3]
  · intro f s e pb pm h1 h2 h3
    simp only [recomputePolicy, if_neg h1, if_neg h2, if_neg h3]
  · intro s e pb pm
    simp only [recomputePolicy]
    rw [if_pos]
    norm_num

/-- Witness for C8: the break branch applied at frustration 65. -/
theorem break_policy_spec_witness :
    recomputePolicy 65 0 0 false none = (true, some MessageCategory.breakTime) :=
  break_policy_spec.1 65 0 0 false none (by norm_num)

/-- Claim C9, code behaviour at the failing input. Seeding from a prior
assessment with totalQuestions = 0 divides 0/0: the frustration seed is
NaN, not the well-defined 0 the claim requires. -/
theorem seed_zero_questions_nan :
    (getInitialEmotionalState (some emptyResult)).frustrationLevel = JSNum.nan ∧
    JSNum.nan ≠ JSNum.val 0 := ⟨rfl, by simp⟩

/-- Claim C10. consecutiveWrongCount resets to 0 on a correct answer and
increments on a wrong one, a wrong answer forces a motivation message
exactly when the pre-increment count is at least 2, and the sequence
[wrong, wrong, correct, wrong] ends with count 1 with no motivation forced
by the third event. -/
theorem consecutive_wrong_spec :
    (∀ c : ℕ, answerStep c (some true) = (0, false)) ∧
    (∀ c : ℕ, answerStep c (some false) = (c + 1, decide (c ≥ 2))) ∧
    runAnswers [some false, some false, some true, some false] =
      (1, [false, false, false, false]) :=
  ⟨fun c => rfl, fun c => rfl, by decide⟩
end EduSense
